import Mathlib

/-!
Shallow embedding of `src/PROJECT.py` (Restaurant Billing App CLI).

Conventions of the embedding:
* Python integers are `Int` (or `Nat` where the source guarantees non-negative
  values, e.g. parsed quantities).
* The Python float arithmetic on monetary values (`TAX_RATE = 0.05`,
  `round(x, 2)`) is modelled over exact rationals `ℚ`, with Python 3's
  `round` (round-half-to-even) made explicit as `pyRound`.
* Interactive input is modelled by explicit input events / input lists;
  `sys.exit(n)` and raised exceptions become `Except` error values carrying
  the exit code or error message.
* Python's Unicode character classification (`str.isdigit` and the
  decimal-digit values `int` accepts) is abstracted as a `PyCharSemantics`
  record whose fields pin the documented facts used, so quantity parsing is
  settled for every classification consistent with Python's, including the
  `ValueError` path where `isdigit` holds but `int` fails.
* Python dicts preserve insertion order, so `MENUS` is an ordered association
  list, exactly in source order.
-/

/-- Constant `BRAND` (PROJECT.py line 22). -/
def BRAND : String := "Sai Krishna Restaurant"

/-- Constant `CURRENCY` (PROJECT.py line 23). -/
def CURRENCY : String := "₹"

/-- Constant `TAX_RATE = 0.05` (PROJECT.py line 24); the float literal is
modelled as the exact rational 5/100. -/
def TAX_RATE : ℚ := 5 / 100

/-- The `MENUS` dict (PROJECT.py lines 26-53), as an insertion-ordered
association list of category → ordered (item name, unit price) list. -/
def MENUS : List (String × List (String × Int)) :=
  [ ("veg",
      [ ("Idli", 50), ("Dosa", 50), ("Veg Biryani", 100), ("Chapathi", 50),
        ("Parota", 50), ("Pulihora", 50), ("Veg Fried Rice", 100),
        ("Veg Noodles", 100) ]),
    ("nonveg",
      [ ("Chicken Idli", 100), ("Chicken Dosa", 100), ("Chicken Chapathi", 100),
        ("Chicken Parota", 100), ("Egg Fried Rice", 100), ("Egg Noodles", 100),
        ("Chicken Fried Rice", 299), ("Chicken Noodles", 299), ("Biryani", 299),
        ("Dum Biryani", 299), ("Mandi", 299), ("String Biryani", 299),
        ("Frontier Biryani", 299), ("Chicken Lollipop", 299) ]) ]

/-- The keys of `MENUS`, in insertion order. -/
def menuKeys : List String := MENUS.map (fun e => e.1)

/-- Dataclass `LineItem` (PROJECT.py lines 56-60). -/
structure LineItem where
  name : String
  unit_price : Int
  qty : Int
  deriving DecidableEq

/-- Property `LineItem.total` (PROJECT.py lines 62-64). -/
def LineItem.total (it : LineItem) : Int := it.unit_price * it.qty

/-- A broken-down timestamp standing for Python's `datetime` value
(year, month, day, hour, minute, second). -/
structure Timestamp where
  year : Nat
  month : Nat
  day : Nat
  hour : Nat
  minute : Nat
  second : Nat
  deriving DecidableEq

/-- Dataclass `Order` (PROJECT.py lines 66-70). -/
structure Order where
  category : String
  items : List LineItem
  created_at : Timestamp
  deriving DecidableEq

/-- Property `Order.subtotal` (PROJECT.py lines 72-74):
`sum(it.total for it in self.items)`. -/
def Order.subtotal (o : Order) : Int := (o.items.map LineItem.total).sum

/-- Python 3 `round` to an integer: round half to even. -/
def pyRound (q : ℚ) : ℤ :=
  let f := ⌊q⌋
  let r := q - (f : ℚ)
  if r < 1 / 2 then f
  else if 1 / 2 < r then f + 1
  else if f % 2 = 0 then f else f + 1

/-- Python `round(x, 2)`: round to 2 decimal places, half to even. -/
def round2 (q : ℚ) : ℚ := (pyRound (q * 100) : ℚ) / 100

/-- Property `Order.tax` (PROJECT.py lines 76-78):
`round(self.subtotal * TAX_RATE, 2)`. -/
def Order.tax (o : Order) : ℚ := round2 ((o.subtotal : ℚ) * TAX_RATE)

/-- Property `Order.grand_total` (PROJECT.py lines 80-82):
`round(self.subtotal + self.tax, 2)`. -/
def Order.grand_total (o : Order) : ℚ := round2 ((o.subtotal : ℚ) + o.tax)

/-- Helper `hr` (PROJECT.py lines 85-86): `char * width`. -/
def hr (char : String) (width : Nat) : String := String.join (List.replicate width char)

/-- Python `str.strip()`: drop leading and trailing whitespace. -/
def pyStrip (cs : List Char) : List Char :=
  ((cs.dropWhile (fun c => c.isWhitespace)).reverse.dropWhile (fun c => c.isWhitespace)).reverse

/-- What one attempt to read a line of input can be: a line, an interrupt
signal (`KeyboardInterrupt`), or end-of-input (`EOFError`). -/
inductive InputEvent where
  | line (s : String)
  | interrupt
  | eof
  deriving DecidableEq

/-- Function `ask` (PROJECT.py lines 88-93): returns the line on success; on
interrupt/end-of-input it prints a farewell and exits with status 0, modelled
as an error value carrying the printed message and the exit code. -/
def ask (ev : InputEvent) : Except (String × Nat) String :=
  match ev with
  | .line s => .ok s
  | .interrupt => .error ("\nExiting. Goodbye!", 0)
  | .eof => .error ("\nExiting. Goodbye!", 0)

/-- One acceptance test of `choose_category` (PROJECT.py lines 95-100):
strip and lowercase the input; if it is a key of `MENUS`, return it,
otherwise signal a re-prompt (`none`). -/
def choose_category_step (raw : String) : Option String :=
  let v := String.mk ((pyStrip raw.data).map Char.toLower)
  if MENUS.any (fun e => e.1 == v) then some v else none

/-- The `choose_category` loop over a list of successive input lines:
returns the first accepted category; `none` if every line is rejected
(the real loop would still be prompting). -/
def choose_category : List String → Option String
  | [] => none
  | r :: rest =>
    match choose_category_step r with
    | some v => some v
    | none => choose_category rest

/-- Lookup `MENUS[category]`, with the unused-category case mapped to `[]`
(the source only calls this with a key returned by `choose_category`). -/
def menuOf (category : String) : List (String × Int) :=
  match MENUS.find? (fun e => e.1 == category) with
  | some e => e.2
  | none => []

/-- Python `f"{n:02d}"` for a natural number. -/
def pad2 (n : Nat) : String := if n < 10 then "0" ++ toString n else toString n

/-- Python `f"{n:04d}"` / `%Y` for a natural number. -/
def pad4 (n : Nat) : String :=
  if n < 10 then "000" ++ toString n
  else if n < 100 then "00" ++ toString n
  else if n < 1000 then "0" ++ toString n
  else toString n

/-- The item-code expression `f"{category[0].upper()}{idx:02d}"` shared by
`display_menu` (line 109) and `build_code_map` (line 134). -/
def item_code (category : String) (idx : Nat) : String :=
  String.singleton category.front.toUpper ++ pad2 idx

/-- Function `display_menu` (PROJECT.py lines 102-113), restricted to its returned
data: the `code_rows` list of `(code_str, price, name)` triples, one per
catalog entry in iteration order, codes numbered from 1. -/
def display_menu (category : String) : List (String × Int × String) :=
  (menuOf category).enum.map (fun x => (item_code category (x.1 + 1), x.2.2, x.2.1))

/-- Function `build_code_map` (PROJECT.py lines 132-136): the dict comprehension
`{code: (name, price)}`, as an ordered association list. -/
def build_code_map (category : String) : List (String × String × Int) :=
  (menuOf category).enum.map (fun x => (item_code category (x.1 + 1), x.2.1, x.2.2))

/-- Outcome of one iteration of the `ask_qty` loop body (PROJECT.py lines
125-130): a parsed quantity is returned, or the loop prints a message and
re-prompts, or — when `raw.isdigit()` is true but `int(raw)` cannot convert
the string — Python raises a `ValueError` that no handler catches. -/
inductive QtyOutcome where
  | accepted (n : Nat)
  | reprompt
  | valueError
  deriving DecidableEq

/-- Python's per-character Unicode classification, abstracted: `isdigit` is
`str.isdigit` on one character (property Numeric_Type Digit or Decimal) and
`decimal` is the decimal-digit value `int` uses (category Nd), `none` when
`int` rejects the character. The fields pin exactly the documented facts of
Python's character database that the theorems rely on: the ASCII digits are
decimal digits with their usual values, no other ASCII character is
digit-classified, superscript two U+00B2 is digit-classified but has no
decimal value, and Arabic-Indic three U+0663 is a decimal digit of value 3.
Quantifying over this structure covers every classification consistent with
those facts, the real one included. -/
structure PyCharSemantics where
  isdigit : Char → Bool
  decimal : Char → Option Nat
  ascii_digit : ∀ c : Char, c.isDigit = true →
    isdigit c = true ∧ decimal c = some (c.toNat - 48)
  ascii_nondigit : ∀ c : Char, c.toNat < 128 → c.isDigit = false → isdigit c = false
  sup_two : isdigit '²' = true ∧ decimal '²' = none
  arabic_three : isdigit '٣' = true ∧ decimal '٣' = some 3

/-- Python `int(s)` on a string that passed `str.isdigit`: defined iff every
character has a decimal-digit value, in which case the values are read off
in base 10; `none` stands for the raised `ValueError`. -/
def pyInt (S : PyCharSemantics) (cs : List Char) : Option Nat :=
  cs.foldl
    (fun acc c =>
      match acc, S.decimal c with
      | some a, some d => some (a * 10 + d)
      | _, _ => none)
    (some 0)

/-- One iteration of `ask_qty` (PROJECT.py lines 125-130) on a raw input
line: strip it; if `raw.isdigit()` is false the loop re-prompts; otherwise
`int(raw)` is evaluated — an uncaught `ValueError` when some character has
no decimal value, else the value is returned when positive and the loop
re-prompts on zero. -/
def ask_qty (S : PyCharSemantics) (raw : String) : QtyOutcome :=
  let cs := pyStrip raw.data
  if (!cs.isEmpty && cs.all S.isdigit) = true then
    match pyInt S cs with
    | none => .valueError
    | some n => if 0 < n then .accepted n else .reprompt
  else .reprompt

/-- Concrete digit classification: ASCII digits, the Arabic-Indic decimal
digits U+0660-0669 and the superscript digits U+00B9, U+00B2, U+00B3, as in
Python's character database. -/
def pyCharsIsdigit (c : Char) : Bool :=
  c.isDigit || (1632 ≤ c.toNat && c.toNat ≤ 1641) ||
    c.toNat == 185 || c.toNat == 178 || c.toNat == 179

/-- Concrete decimal-digit values for `pyCharsIsdigit`: ASCII and
Arabic-Indic digits have values, the superscripts have none. -/
def pyCharsDecimal (c : Char) : Option Nat :=
  if c.isDigit then some (c.toNat - 48)
  else if 1632 ≤ c.toNat && c.toNat ≤ 1641 then some (c.toNat - 1632)
  else none

/-- A concrete `PyCharSemantics` built from `pyCharsIsdigit` and
`pyCharsDecimal`, showing the abstraction is inhabited. -/
def pyCharsModel : PyCharSemantics :=
  ⟨pyCharsIsdigit, pyCharsDecimal,
   fun c h => ⟨by simp [pyCharsIsdigit, h], by simp [pyCharsDecimal, h]⟩,
   fun c h128 hnd => by
     have e1 : decide (1632 ≤ c.toNat) = false := decide_eq_false (by omega)
     have e2 : (c.toNat == 185) = false := by simp; omega
     have e3 : (c.toNat == 178) = false := by simp; omega
     have e4 : (c.toNat == 179) = false := by simp; omega
     simp [pyCharsIsdigit, hnd, e1, e2, e3, e4],
   ⟨by decide, by decide⟩,
   ⟨by decide, by decide⟩⟩

/-- The tail of `make_order` (PROJECT.py lines 154-158): once the item loop
has produced `items`, exit with status 0 if no items were selected, else
construct the `Order`. -/
def make_order_finalize (category : String) (items : List LineItem) (now : Timestamp) :
    Except Nat Order :=
  if items.isEmpty then .error 0 else .ok ⟨category, items, now⟩

/-- Format `strftime("%Y-%m-%d %H:%M:%S")` (PROJECT.py line 168). -/
def fmtDate (t : Timestamp) : String :=
  pad4 t.year ++ "-" ++ pad2 t.month ++ "-" ++ pad2 t.day ++ " " ++
    pad2 t.hour ++ ":" ++ pad2 t.minute ++ ":" ++ pad2 t.second

/-- Format `strftime("%Y%m%d_%H%M%S")` (PROJECT.py line 193). -/
def fmtStamp (t : Timestamp) : String :=
  pad4 t.year ++ pad2 t.month ++ pad2 t.day ++ "_" ++
    pad2 t.hour ++ pad2 t.minute ++ pad2 t.second

/-- Python `f"{s:<w}"`: left-align, pad with spaces to width `w`. -/
def padR (s : String) (w : Nat) : String :=
  s ++ String.mk (List.replicate (w - s.length) ' ')

/-- Python `f"{s:>w}"`: right-align, pad with spaces to width `w`. -/
def padL (s : String) (w : Nat) : String :=
  String.mk (List.replicate (w - s.length) ' ') ++ s

/-- Python `f"{q:.2f}"` for the (exact-cents) rationals produced by `round2`. -/
def fmtFixed2 (q : ℚ) : String :=
  let c := pyRound (q * 100)
  (if c < 0 then "-" else "") ++ toString (c.natAbs / 100) ++ "." ++ pad2 (c.natAbs % 100)

/-- Function `render_receipt` (PROJECT.py lines 160-189). The process-dependent
`hash(order.created_at)` used when `order_id is None` is abstracted as the
parameter `hashOf`; everything else is the literal string construction of
the source. -/
def render_receipt (hashOf : Timestamp → Int) (order : Order)
    (customer_name : Option String) (order_id : Option String) : String :=
  let oid :=
    match order_id with
    | some i => i
    | none =>
      "ORD-" ++ pad4 order.created_at.year ++ pad2 order.created_at.month ++
        pad2 order.created_at.day ++ "-" ++
        (toString (hashOf order.created_at).natAbs).take 6
  let title := BRAND ++ " — Receipt"
  let header :=
    [ title, hr "=" 72, "Order ID : " ++ oid,
      "Date     : " ++ fmtDate order.created_at,
      "Category : " ++ order.category.toUpper ] ++
    (match customer_name with
     | some c => if c.isEmpty then [] else ["Customer : " ++ c]
     | none => [])
  let body :=
    [ hr "-" 72,
      padR "Item" 28 ++ padL "Qty" 5 ++ padL "Rate" 10 ++ padL "Total" 12,
      hr "-" 72 ] ++
    order.items.map (fun it =>
      padR it.name 28 ++ padL (toString it.qty) 5 ++ CURRENCY ++
        padL (toString it.unit_price) 9 ++ CURRENCY ++ padL (toString it.total) 11) ++
    [ hr "-" 72,
      padR "Sub Total" 43 ++ CURRENCY ++ padL (toString order.subtotal) 11,
      padR "GST (5%)" 43 ++ CURRENCY ++ padL (fmtFixed2 order.tax) 11,
      hr "-" 72,
      padR "Grand Total" 43 ++ CURRENCY ++ padL (fmtFixed2 order.grand_total) 11,
      hr "=" 72,
      "Thank you for your order!" ]
  String.intercalate "\n" (header ++ body)

/-- Outcome of the one file write the program performs. -/
inductive WriteOutcome where
  | ok
  | err (msg : String)
  deriving DecidableEq

/-- Function `save_receipt` (PROJECT.py lines 191-197): derive the filename when none
(or an empty one) is given, then attempt the write; a write failure
propagates unchanged as the error, a success returns the filename. -/
def save_receipt (text : String) (filename : Option String) (now : Timestamp)
    (w : WriteOutcome) : Except String String :=
  let fn :=
    match filename with
    | none => "receipt_" ++ fmtStamp now ++ ".txt"
    | some f => if f.isEmpty then "receipt_" ++ fmtStamp now ++ ".txt" else f
  match w with
  | .ok => .ok fn
  | .err m => .error m

/-- Final state of a run of `main` (PROJECT.py lines 200-207): the process
exit code and the receipt file written, if any. -/
structure MainResult where
  exitCode : Nat
  savedFile : Option String
  deriving DecidableEq

/-- Function `main` (PROJECT.py lines 200-207) from the point where the item list is
known: finalize the order (exiting 0 on an empty selection, writing
nothing), read the optional customer name, render, and save; an uncaught
write error terminates the process with exit code 1. -/
def mainModel (hashOf : Timestamp → Int) (category : String) (items : List LineItem)
    (now saveNow : Timestamp) (customerRaw : String) (w : WriteOutcome) : MainResult :=
  match make_order_finalize category items now with
  | .error c => ⟨c, none⟩
  | .ok o =>
    let c := pyStrip customerRaw.data
    let customer := if c.isEmpty then none else some (String.mk c)
    match save_receipt (render_receipt hashOf o customer none) none saveNow w with
    | .error _ => ⟨1, none⟩
    | .ok fn => ⟨0, some fn⟩

/-- Concrete line items from the spec's end-to-end scenario. -/
def sampleItems : List LineItem := [⟨"Idli", 50, 2⟩, ⟨"Veg Biryani", 100, 1⟩]

/-- A concrete timestamp. -/
def sampleTs : Timestamp := ⟨2026, 10, 12, 12, 0, 0⟩

/-- A concrete order (the spec's end-to-end scenario). -/
def sampleOrder : Order := ⟨"veg", sampleItems, sampleTs⟩

/-- The sample order with a different category and creation time but the
same items. -/
def sampleOrderB : Order := ⟨"nonveg", sampleItems, ⟨2025, 1, 1, 0, 0, 0⟩⟩

/-- Bridge between the boolean membership test of `choose_category_step`
and membership in `menuKeys`. -/
theorem menus_any_eq_true (v : String) :
    (MENUS.any (fun e => e.1 == v)) = true ↔ v ∈ menuKeys := by
  simp [menuKeys, List.any_eq_true, List.mem_map]

/-- C1: for every `Order` the derived tax is `round(subtotal * TAX_RATE, 2)`,
the derived grand total is `round(subtotal + tax, 2)` — that is,
`round(subtotal + round(subtotal * TAX_RATE, 2), 2)` — and wherever that
formula differs from `round(subtotal * (1 + TAX_RATE), 2)`, the grand total
is the former, not the latter. -/
theorem tax_and_grand_total_rounding (o : Order) :
    o.tax = round2 ((o.subtotal : ℚ) * TAX_RATE) ∧
    o.grand_total = round2 ((o.subtotal : ℚ) + o.tax) ∧
    o.grand_total = round2 ((o.subtotal : ℚ) + round2 ((o.subtotal : ℚ) * TAX_RATE)) ∧
    (round2 ((o.subtotal : ℚ) + round2 ((o.subtotal : ℚ) * TAX_RATE)) ≠
        round2 ((o.subtotal : ℚ) * (1 + TAX_RATE)) →
      o.grand_total ≠ round2 ((o.subtotal : ℚ) * (1 + TAX_RATE))) := by
  refine ⟨rfl, rfl, rfl, fun h => ?_⟩
  simpa [Order.grand_total, Order.tax] using h

/-- Witness for C1: the spec's end-to-end scenario order (subtotal 200) has
tax 10 and grand total 210, and satisfies the rounding-order equation. -/
theorem tax_and_grand_total_rounding_witness :
    sampleOrder.tax = 10 ∧ sampleOrder.grand_total = 210 ∧
    sampleOrder.grand_total
      = round2 ((sampleOrder.subtotal : ℚ) + round2 ((sampleOrder.subtotal : ℚ) * TAX_RATE)) :=
  ⟨by norm_num [Order.tax, Order.subtotal, sampleOrder, sampleItems, LineItem.total,
      TAX_RATE, round2, pyRound],
   by norm_num [Order.grand_total, Order.tax, Order.subtotal, sampleOrder, sampleItems,
      LineItem.total, TAX_RATE, round2, pyRound],
   (tax_and_grand_total_rounding sampleOrder).2.2.1⟩

/-- C2: for every (possibly empty) item list the order subtotal is exactly
the integer sum of `unit_price * qty` over the items, and each line item's
derived total is `unit_price * qty`. -/
theorem subtotal_is_exact_sum (category : String) (items : List LineItem) (ts : Timestamp) :
    (Order.mk category items ts).subtotal
        = (items.map (fun it => it.unit_price * it.qty)).sum ∧
    ∀ it : LineItem, it.total = it.unit_price * it.qty :=
  ⟨rfl, fun _ => rfl⟩

/-- C6: rendering is deterministic for an explicitly supplied order id: the
result does not depend on the ambient `hash` function, so two calls with the
same order, customer name and explicit order id yield identical text. -/
theorem render_receipt_deterministic (h₁ h₂ : Timestamp → Int) (o : Order)
    (customer : Option String) (oid : String) :
    render_receipt h₁ o customer (some oid) = render_receipt h₂ o customer (some oid) :=
  rfl

/-- C10: the derived subtotal, tax and grand total of an `Order` depend only
on its `items`: orders agreeing on `items` but differing in category or
creation time have identical totals. -/
theorem totals_depend_only_on_items (o₁ o₂ : Order) (h : o₁.items = o₂.items) :
    o₁.subtotal = o₂.subtotal ∧ o₁.tax = o₂.tax ∧ o₁.grand_total = o₂.grand_total := by
  have hs : o₁.subtotal = o₂.subtotal := by simp [Order.subtotal, h]
  exact ⟨hs, by simp [Order.tax, hs], by simp [Order.grand_total, Order.tax, hs]⟩

/-- Witness for C10: two concrete orders with the same items but different
category and creation time have equal subtotal, tax and grand total. -/
theorem totals_depend_only_on_items_witness :
    sampleOrder.items = sampleOrderB.items ∧
    sampleOrder.subtotal = sampleOrderB.subtotal ∧ sampleOrder.tax = sampleOrderB.tax ∧
    sampleOrder.grand_total = sampleOrderB.grand_total :=
  ⟨rfl, totals_depend_only_on_items sampleOrder sampleOrderB rfl⟩

/-- C3: the claim fails on the code. The guard `raw.isdigit()` of `ask_qty`
does not guarantee `int(raw)` succeeds: on the non-numeric input "²"
(digit-classified by `str.isdigit`, but carrying no decimal value) the
conversion raises a `ValueError` that nothing catches, so the program
crashes instead of re-prompting — and this holds for every character
classification consistent with Python's documented facts. On the claim's
remaining classes the parser behaves as stated: "0", the negative "-5" and
the non-numeric "abc" re-prompt, "007" is accepted as 7, the Unicode
decimal string "٣" is accepted as 3, and any accepted value is positive. -/
theorem ask_qty_crash_on_superscript :
    (∀ S : PyCharSemantics, ask_qty S "²" = .valueError) ∧
    ask_qty pyCharsModel "²" = .valueError ∧
    (∀ S : PyCharSemantics, ask_qty S "0" = .reprompt) ∧
    (∀ S : PyCharSemantics, ask_qty S "-5" = .reprompt) ∧
    (∀ S : PyCharSemantics, ask_qty S "abc" = .reprompt) ∧
    (∀ S : PyCharSemantics, ask_qty S "007" = .accepted 7) ∧
    (∀ S : PyCharSemantics, ask_qty S "٣" = .accepted 3) ∧
    (∀ (S : PyCharSemantics) (s : String),
        ask_qty S s = .reprompt ∨ ask_qty S s = .valueError ∨
        ∃ n, 0 < n ∧ ask_qty S s = .accepted n) := by
  have hsup : ∀ S : PyCharSemantics, ask_qty S "²" = .valueError := by
    intro S
    have hs : pyStrip "²".data = ['²'] := by decide
    simp [ask_qty, hs, S.sup_two.1, S.sup_two.2, pyInt]
  refine ⟨hsup, hsup pyCharsModel, ?_, ?_, ?_, ?_, ?_, ?_⟩
  · intro S
    have hs : pyStrip "0".data = ['0'] := by decide
    have h := S.ascii_digit '0' (by decide)
    have hv : S.decimal '0' = some 0 := h.2.trans (by decide)
    simp [ask_qty, hs, h.1, hv, pyInt]
  · intro S
    have hs : pyStrip "-5".data = ['-', '5'] := by decide
    have h := S.ascii_nondigit '-' (by decide) (by decide)
    simp [ask_qty, hs, h]
  · intro S
    have hs : pyStrip "abc".data = ['a', 'b', 'c'] := by decide
    have h := S.ascii_nondigit 'a' (by decide) (by decide)
    simp [ask_qty, hs, h]
  · intro S
    have hs : pyStrip "007".data = ['0', '0', '7'] := by decide
    have h0 := S.ascii_digit '0' (by decide)
    have h7 := S.ascii_digit '7' (by decide)
    have hv0 : S.decimal '0' = some 0 := h0.2.trans (by decide)
    have hv7 : S.decimal '7' = some 7 := h7.2.trans (by decide)
    simp [ask_qty, hs, h0.1, h7.1, hv0, hv7, pyInt]
  · intro S
    have hs : pyStrip "٣".data = ['٣'] := by decide
    simp [ask_qty, hs, S.arabic_three.1, S.arabic_three.2, pyInt]
  · intro S s
    simp only [ask_qty]
    split
    · cases hp : pyInt S (pyStrip s.data) with
      | none => simp
      | some n =>
        by_cases hn : 0 < n
        · refine Or.inr (Or.inr ⟨n, hn, ?_⟩)
          show (if 0 < n then QtyOutcome.accepted n else QtyOutcome.reprompt)
              = QtyOutcome.accepted n
          rw [if_pos hn]
        · refine Or.inl ?_
          show (if 0 < n then QtyOutcome.accepted n else QtyOutcome.reprompt)
              = QtyOutcome.reprompt
          rw [if_neg hn]
    · exact Or.inl rfl

/-- C4: every order returned by the finalization step of `make_order` has a
non-empty item list, and when zero items were selected the process exits
with status 0 and `main` writes no receipt file. -/
theorem order_finalization_nonempty (category : String) (items : List LineItem)
    (now : Timestamp) :
    (∀ o : Order, make_order_finalize category items now = .ok o → o.items ≠ []) ∧
    (items = [] →
      make_order_finalize category items now = .error 0 ∧
      ∀ (hashOf : Timestamp → Int) (saveNow : Timestamp) (customerRaw : String)
        (w : WriteOutcome),
        mainModel hashOf category items now saveNow customerRaw w = ⟨0, none⟩) := by
  constructor
  · intro o h
    unfold make_order_finalize at h
    by_cases he : items.isEmpty
    · rw [if_pos he] at h
      cases h
    · rw [if_neg he] at h
      cases h
      simpa using he
  · intro h
    subst h
    exact ⟨rfl, fun hashOf saveNow customerRaw w => rfl⟩

/-- Witness for C4: with zero items the process exits 0 and writes nothing;
the concrete two-item order finalizes with a non-empty item list. -/
theorem order_finalization_nonempty_witness :
    make_order_finalize "veg" [] sampleTs = .error 0 ∧
    mainModel (fun _ => 0) "veg" [] sampleTs sampleTs "" .ok = ⟨0, none⟩ ∧
    sampleOrder.items ≠ [] :=
  ⟨((order_finalization_nonempty "veg" [] sampleTs).2 rfl).1,
   ((order_finalization_nonempty "veg" [] sampleTs).2 rfl).2 (fun _ => 0) sampleTs "" .ok,
   (order_finalization_nonempty "veg" sampleItems sampleTs).1 sampleOrder rfl⟩

/-- C5: for every valid category, the code map built for code resolution
assigns to each code exactly the (name, price) shown for that code by the
menu display — the two generations are identical — and the displayed codes
are the uppercased category initial followed by the 2-digit zero-padded
1-based index in catalog order. -/
theorem code_map_matches_display (category : String) (hcat : category ∈ menuKeys) :
    build_code_map category = (display_menu category).map (fun r => (r.1, r.2.2, r.2.1)) ∧
    display_menu category =
      (menuOf category).enum.map
        (fun x => (String.singleton category.front.toUpper ++ pad2 (x.1 + 1),
          x.2.2, x.2.1)) := by
  refine ⟨?_, rfl⟩
  simp only [build_code_map, display_menu, List.map_map]
  rfl

/-- Witness for C5: the veg category's code map equals the reordered display
rows, and the veg codes are V01..V08. -/
theorem code_map_matches_display_witness :
    ("veg" ∈ menuKeys) ∧
    build_code_map "veg" = (display_menu "veg").map (fun r => (r.1, r.2.2, r.2.1)) ∧
    (display_menu "veg").map (fun r => r.1)
      = ["V01", "V02", "V03", "V04", "V05", "V06", "V07", "V08"] :=
  ⟨by decide, (code_map_matches_display "veg" (by decide)).1, by decide⟩

/-- Helper: any category accepted by `choose_category_step` is a key of the
menu catalog. -/
theorem choose_category_step_mem (s v : String)
    (h : choose_category_step s = some v) : v ∈ menuKeys := by
  simp only [choose_category_step] at h
  by_cases hc :
      (MENUS.any (fun e => e.1 == String.mk ((pyStrip s.data).map Char.toLower))) = true
  · rw [if_pos hc] at h
    cases h
    exact (menus_any_eq_true _).mp hc
  · rw [if_neg hc] at h
    cases h

/-- C7: the category selector accepts exactly the inputs whose stripped,
lowercased form is a key of the menu catalog — so every case variant of a
known tag resolves to that tag — re-prompts (yields `none`, never crashes)
on everything else, and only ever returns catalog keys; the surrounding
loop likewise only returns catalog keys. -/
theorem choose_category_case_insensitive :
    (∀ s tag : String, tag ∈ menuKeys →
        String.mk ((pyStrip s.data).map Char.toLower) = tag →
        choose_category_step s = some tag) ∧
    (∀ s : String, String.mk ((pyStrip s.data).map Char.toLower) ∉ menuKeys →
        choose_category_step s = none) ∧
    (∀ s v : String, choose_category_step s = some v → v ∈ menuKeys) ∧
    (choose_category_step "VEG" = some "veg" ∧ choose_category_step "Veg" = some "veg" ∧
      choose_category_step "veg" = some "veg") ∧
    (∀ (inputs : List String) (v : String), choose_category inputs = some v →
        v ∈ menuKeys) := by
  refine ⟨?_, ?_, choose_category_step_mem, by refine ⟨by decide, by decide, by decide⟩, ?_⟩
  · intro s tag htag heq
    simp only [choose_category_step]
    rw [heq, if_pos ((menus_any_eq_true tag).mpr htag)]
  · intro s hmem
    simp only [choose_category_step]
    rw [if_neg]
    intro hc
    exact hmem ((menus_any_eq_true _).mp hc)
  · intro inputs
    induction inputs with
    | nil => intro v h; cases h
    | cons r rest ih =>
      intro v h
      simp only [choose_category] at h
      cases hstep : choose_category_step r with
      | some u =>
        rw [hstep] at h
        cases h
        exact choose_category_step_mem r _ hstep
      | none =>
        rw [hstep] at h
        exact ih v h

/-- Witness for C7: "VEG" resolves to the catalog key "veg", and "fish"
is rejected with a re-prompt. -/
theorem choose_category_case_insensitive_witness :
    ("veg" ∈ menuKeys ∧ String.mk ((pyStrip "VEG".data).map Char.toLower) = "veg" ∧
      choose_category_step "VEG" = some "veg") ∧
    (String.mk ((pyStrip "fish".data).map Char.toLower) ∉ menuKeys ∧
      choose_category_step "fish" = none) :=
  ⟨⟨by decide, by decide,
     choose_category_case_insensitive.1 "VEG" "veg" (by decide) (by decide)⟩,
   ⟨by decide, choose_category_case_insensitive.2.1 "fish" (by decide)⟩⟩

/-- C8: interrupting input (interrupt signal or end-of-input) at any prompt
makes `ask` print the farewell message and exit with status 0; a normal
line is returned unchanged, and every cancellation exit carries status 0
with the farewell message. -/
theorem ask_cancellation_exits_zero :
    ask .interrupt = .error ("\nExiting. Goodbye!", 0) ∧
    ask .eof = .error ("\nExiting. Goodbye!", 0) ∧
    (∀ s : String, ask (.line s) = .ok s) ∧
    (∀ (ev : InputEvent) (msg : String) (code : Nat),
        ask ev = .error (msg, code) → code = 0 ∧ msg = "\nExiting. Goodbye!") := by
  refine ⟨rfl, rfl, fun s => rfl, fun ev msg code h => ?_⟩
  cases ev with
  | line s => cases h
  | interrupt =>
    injection h with h
    injection h with h1 h2
    exact ⟨h2.symm, h1.symm⟩
  | eof =>
    injection h with h
    injection h with h1 h2
    exact ⟨h2.symm, h1.symm⟩

/-- Witness for C8: the concrete interrupt event exits with status 0 and the
farewell message. -/
theorem ask_cancellation_exits_zero_witness :
    ask .interrupt = .error ("\nExiting. Goodbye!", 0) ∧
    (0 = 0 ∧ "\nExiting. Goodbye!" = "\nExiting. Goodbye!") :=
  ⟨ask_cancellation_exits_zero.1,
   ask_cancellation_exits_zero.2.2.2 .interrupt "\nExiting. Goodbye!" 0 rfl⟩

/-- C9: a failing write makes `save_receipt` propagate the error unchanged
(no retry, no fallback) and makes `main` terminate with the non-zero exit
code 1 writing no file; a successful write returns the filename, derived as
`receipt_YYYYMMDD_HHMMSS.txt` from the current timestamp when none is
given. -/
theorem save_receipt_error_propagation :
    (∀ (text : String) (filename : Option String) (now : Timestamp) (m : String),
        save_receipt text filename now (.err m) = .error m) ∧
    (∀ (text : String) (now : Timestamp),
        save_receipt text none now .ok = .ok ("receipt_" ++ fmtStamp now ++ ".txt")) ∧
    (∀ (text f : String) (now : Timestamp), f.isEmpty = false →
        save_receipt text (some f) now .ok = .ok f) ∧
    (∀ (hashOf : Timestamp → Int) (category : String) (items : List LineItem)
        (now saveNow : Timestamp) (customerRaw : String) (m : String), items ≠ [] →
        mainModel hashOf category items now saveNow customerRaw (.err m) = ⟨1, none⟩) := by
  refine ⟨fun text filename now m => rfl, fun text now => rfl, ?_, ?_⟩
  · intro text f now hf
    simp only [save_receipt]
    rw [if_neg]
    simp [hf]
  · intro hashOf category items now saveNow customerRaw m hne
    have he : items.isEmpty = false := by simp [List.isEmpty_eq_false, hne]
    simp only [mainModel, make_order_finalize]
    rw [if_neg]
    · rfl
    · simp [he]

/-- Witness for C9: a concrete failing write propagates as the same error
and exits `main` with code 1 and no file; a concrete successful write with
no filename yields the timestamp-derived name. -/
theorem save_receipt_error_propagation_witness :
    save_receipt "text" none sampleTs (.err "denied") = .error "denied" ∧
    save_receipt "text" none sampleTs .ok = .ok ("receipt_" ++ fmtStamp sampleTs ++ ".txt") ∧
    ("x".isEmpty = false ∧ save_receipt "text" (some "x") sampleTs .ok = .ok "x") ∧
    (sampleItems ≠ [] ∧
      mainModel (fun _ => 0) "veg" sampleItems sampleTs sampleTs "Ravi" (.err "denied")
        = ⟨1, none⟩) :=
  ⟨save_receipt_error_propagation.1 "text" none sampleTs "denied",
   save_receipt_error_propagation.2.1 "text" sampleTs,
   ⟨by decide, save_receipt_error_propagation.2.2.1 "text" "x" sampleTs (by decide)⟩,
   ⟨by decide, save_receipt_error_propagation.2.2.2 (fun _ => 0) "veg" sampleItems
      sampleTs sampleTs "Ravi" "denied" (by decide)⟩⟩
